import Mathlib

/-
  Verification development for the paper-record model and the add-paper
  pipeline of this repository.

  Python strings are modelled as lists of Unicode code points (List Char).
  Source of the definitions below:
    - papers/paper.py   (sanitizer, Paper record)
    - pubs/commands/add_cmd.py  (add pipeline)
-/

set_option autoImplicit false

/-- Python strings, modelled as sequences of code points. -/
abbrev PyStr := List Char

/-! ## Citekey sanitizer (papers/paper.py, lines 12-30) -/

/-- CONTROL_CHARS, paper.py line 12: code points 0-31 and 127-159. -/
def isControlChar (c : Char) : Bool :=
  c.toNat < 32 || (127 ≤ c.toNat && c.toNat < 160)

/-- CITEKEY_FORBIDDEN_CHARS, paper.py line 13: the code points of the ten
characters at-sign, apostrophe, backslash, comma, hash, closing brace,
opening brace, tilde, percent, slash. -/
def forbiddenCodes : List Nat := [64, 39, 92, 44, 35, 125, 123, 126, 37, 47]

/-- Membership in CITEKEY_FORBIDDEN_CHARS. -/
def isForbiddenChar (c : Char) : Bool := forbiddenCodes.contains c.toNat

/-- CITEKEY_EXCLUDE_RE, paper.py lines 15-16: a character matched by the
regular expression class built from CONTROL_CHARS + CITEKEY_FORBIDDEN_CHARS. -/
def isExcluded (c : Char) : Bool := isControlChar c || isForbiddenChar c

/-- A code point that survives encode ascii-with-ignore (< 128). -/
def isAsciiCp (c : Char) : Bool := c.toNat < 128

/-- Model of the per-character Unicode NFKD compatibility decomposition used
by unicodedata.normalize. ASCII code points are NFKD-invariant and decompose
to themselves; a small table covers the accented letters used in examples;
every other code point is kept unchanged (code points with no decomposition
are NFKD-fixed, and the canonical reordering step of NFKD only permutes
characters of nonzero combining class, all of which are non-ASCII and are
discarded by the subsequent ascii encode of str2citekey). -/
def nfkdChar (c : Char) : List Char :=
  if c.toNat < 128 then [c]
  else if c.toNat = 233 then [Char.ofNat 101, Char.ofNat 769]
  else if c.toNat = 252 then [Char.ofNat 117, Char.ofNat 776]
  else [c]

/-- unicodedata.normalize applied to a whole string: concatenation of the
per-character decompositions. -/
def nfkd : PyStr → PyStr
  | [] => []
  | c :: rest => nfkdChar c ++ nfkd rest

/-- str2citekey, paper.py lines 26-30: NFKD-normalize, encode to ascii
ignoring non-ascii code points, then delete every excluded character. -/
def str2citekey (s : PyStr) : PyStr :=
  ((nfkd s).filter isAsciiCp).filter (fun c => !(isExcluded c))

/-! ## Paper record data model (papers/paper.py) -/

/-- pybtex Person: generate_citekey only consumes the list of last-name
parts returned by Person.last(). -/
structure Person where
  last : List PyStr
deriving DecidableEq

/-- pybtex Entry: a type tag, a field map and a person-role map, both
modelled as association lists looked up at the first matching key. -/
structure Entry where
  etype : PyStr
  fields : List (PyStr × PyStr)
  persons : List (PyStr × List Person)
deriving DecidableEq

/-- DEFAULT_TYPE, paper.py line 10. -/
def defaultType : PyStr := "article".toList

/-- Entry(DEFAULT_TYPE): the empty default entry. -/
def defaultEntry : Entry := ⟨defaultType, [], []⟩

/-- The metadata dictionary: keys filename, extension, path, notes. -/
structure Metadata where
  filename : Option PyStr
  extension : Option PyStr
  path : Option PyStr
  notes : List PyStr
deriving DecidableEq

/-- BASE_META, paper.py lines 18-23 (create_meta returns a copy of it). -/
def baseMeta : Metadata := ⟨none, none, none, []⟩

/-- The Paper aggregate: bibentry, metadata, citekey (the citekey slot may
hold None). -/
structure Paper where
  bibentry : Entry
  metadata : Metadata
  citekey : Option PyStr
deriving DecidableEq

/-- The exceptions raised by papers/paper.py, one constructor per raise
site (plus the uncaught built-in exceptions the code lets escape):
  invalidCitekey  - ValueError at paper.py line 54
  missingAuthor   - ValueError at paper.py lines 99-100
  missingCitekey  - ValueError at paper.py lines 121-122
  noDocumentFile  - NoDocumentFile at paper.py line 149
  indexError      - an IndexError escaping uncaught
  noneTypeError   - an AttributeError or TypeError from operating on None. -/
inductive PyExn
  | invalidCitekey (ck : Option PyStr)
  | missingAuthor
  | missingCitekey
  | noDocumentFile
  | indexError
  | noneTypeError
deriving DecidableEq

/-- Python unicode() applied to an optional string: unicode(None) is the
four-character string None. -/
def pyUnicodeOpt : Option PyStr → PyStr
  | none => "None".toList
  | some s => s

/-- First-match lookup in an association list (Python dict access). -/
def alistLookup {α : Type} (l : List (PyStr × α)) (k : PyStr) : Option α :=
  (l.find? (fun q => q.1 == k)).map (fun q => q.2)

/-- Paper.__init__, paper.py lines 45-55: default the entry and metadata,
then reject the citekey unless unicode(citekey) equals str2citekey(citekey).
Note str2citekey(citekey) also goes through unicode(), so an absent (None)
citekey is compared as the string None. -/
def paperInit (bibentry : Option Entry) (metadata : Option Metadata)
    (citekey : Option PyStr) : Except PyExn Paper :=
  let be := bibentry.getD defaultEntry
  let md := metadata.getD baseMeta
  if pyUnicodeOpt citekey ≠ str2citekey (pyUnicodeOpt citekey) then
    Except.error (PyExn.invalidCitekey citekey)
  else
    Except.ok ⟨be, md, citekey⟩

/-- Python u-join of a list of strings with the empty separator. -/
def strJoin : List PyStr → PyStr
  | [] => []
  | s :: rest => s ++ strJoin rest

/-- The dictionary key author. -/
def authorKey : PyStr := "author".toList

/-- The dictionary key editor. -/
def editorKey : PyStr := "editor".toList

/-- The dictionary key year. -/
def yearKey : PyStr := "year".toList

/-- The dictionary key file. -/
def fileKey : PyStr := "file".toList

/-- Paper.generate_citekey, paper.py lines 87-106: select the author person
list if the author key is present, else the editor list; a KeyError from the
lookup is re-raised as the missing-author ValueError, while indexing an
empty person list raises an IndexError that the except clause (which names
only KeyError) does not catch; the year field defaults to the empty string;
the result is str2citekey of the joined last names of the first person
followed by the year. -/
def generateCitekey (p : Paper) : Except PyExn PyStr :=
  let key := if (alistLookup p.bibentry.persons authorKey).isSome
    then authorKey else editorKey
  match alistLookup p.bibentry.persons key with
  | none => Except.error PyExn.missingAuthor
  | some [] => Except.error PyExn.indexError
  | some (first :: _) =>
      Except.ok (str2citekey
        (strJoin first.last ++ (alistLookup p.bibentry.fields yearKey).getD []))

/-- The two file writes performed by save_to_disc, delegated to the files
module (external collaborator): recorded as events. -/
inductive WriteEv
  | saveBibdata (citekey : PyStr) (entry : Entry) (path : PyStr)
  | saveMeta (md : Metadata) (path : PyStr)
deriving DecidableEq

/-- Paper.save_to_disc, paper.py lines 116-125: raise the missing-citekey
ValueError when the citekey is None (the error result carries no write
events, so no write is performed); otherwise write the singleton
bibliography file and the metadata file. -/
def saveToDisc (p : Paper) (bibFilepath metaFilepath : PyStr) :
    Except PyExn (List WriteEv) :=
  match p.citekey with
  | none => Except.error PyExn.missingCitekey
  | some k =>
      Except.ok [WriteEv.saveBibdata k p.bibentry bibFilepath,
                 WriteEv.saveMeta p.metadata metaFilepath]

/-- Python str.split on a single separator character: splits at every
occurrence and keeps empty pieces, so the result is never the empty list. -/
def pySplit (sep : Char) : PyStr → List PyStr
  | [] => [[]]
  | c :: rest =>
    if c = sep then [] :: pySplit sep rest
    else
      match pySplit sep rest with
      | [] => [[c]]
      | h :: t => (c :: h) :: t

/-- The value of the loop variable f after the for-loop of paper.py lines
139-141: the first non-empty piece, or the last piece (which is then empty)
when every piece is empty. -/
def loopFirstNonEmpty : List PyStr → PyStr
  | [] => []
  | [x] => x
  | x :: y :: t => if x = [] then loopFirstNonEmpty (y :: t) else x

/-- fields.pop on the entry: removes the first binding of the key. -/
def eraseField (e : Entry) (k : PyStr) : Entry :=
  ⟨e.etype, e.fields.eraseP (fun q => q.1 == k), e.persons⟩

/-- Paper.get_document_file_from_bibdata, paper.py lines 127-149. Returns
the raised-or-returned result together with the entry as left behind by the
call (the file field is popped, when remove is set, before the head of the
candidate is inspected, so the pop also happens on the failing path).
A missing file field raises KeyError, an empty candidate raises IndexError
at the head access; both are converted to NoDocumentFile. -/
def getDocumentFileFromBibdata (p : Paper) (remove : Bool) :
    Except PyExn PyStr × Entry :=
  match alistLookup p.bibentry.fields fileKey with
  | none => (Except.error PyExn.noDocumentFile, p.bibentry)
  | some field =>
    let f := loopFirstNonEmpty (pySplit ':' field)
    let e2 := if remove then eraseField p.bibentry fileKey else p.bibentry
    match f with
    | [] => (Except.error PyExn.noDocumentFile, e2)
    | c :: rest =>
        (if c ≠ '/' then Except.ok ('/' :: c :: rest)
         else Except.ok (c :: rest), e2)

/-! ## Add pipeline (pubs/commands/add_cmd.py, command, lines 70-153)

The collaborators that the command consumes (ui, repository, network
lookups, codec verification, the bibstruct helpers) are external to the two
source files; they are modelled as oracles in an environment record, and
the side effects of a run are recorded as an event list. -/

/-- Outcome of the bibentry_from_editor sub-loop (add_cmd.py lines 42-67):
either an entry that eventually decoded and verified, or a user abort
through ui.exit (the loop itself has no other way to terminate). -/
inductive EditorOutcome
  | entry (e : Entry)
  | aborted (code : Nat)
deriving DecidableEq

/-- The external collaborators of command, as result oracles:
  fileResult - databroker.verify applied to the content of the given bibfile
  doiResult  - databroker.verify applied to the doi2bibtex response
  isbnResult - databroker.verify applied to the isbn2bibtex response
  (each is none exactly when decoding or verification failed)
  extractCitekey / extractDocfile - the bibstruct helpers
  uniqueCitekey / repoKeys - the repository collaborator
  contentType - content.content_type
  confDocAdd - the configured default doc_add. -/
structure Env where
  editor : EditorOutcome
  fileResult : Option Entry
  doiResult : Option Entry
  isbnResult : Option Entry
  extractCitekey : Entry → PyStr
  uniqueCitekey : PyStr → PyStr
  repoKeys : List PyStr
  extractDocfile : Entry → Option PyStr
  contentType : PyStr → PyStr
  confDocAdd : PyStr

/-- The parsed command-line arguments consumed by command. -/
structure Args where
  bibfile : Option PyStr
  doi : Option PyStr
  isbn : Option PyStr
  docfile : Option PyStr
  tags : Option PyStr
  citekey : Option PyStr
  docAdd : Option PyStr
deriving DecidableEq

/-- The (newer) Paper object pushed by the pipeline: entry, citekey, tags. -/
structure MPaper where
  bibentry : Entry
  citekey : PyStr
  tags : List PyStr
deriving DecidableEq

/-- The error reports emitted through ui.error. -/
inductive ErrKind
  | invalidDoi (d : PyStr)
  | invalidIsbn (i : PyStr)
  | invalidBibfile (f : PyStr)
  | citekeyCollision (k : PyStr)
  | uncaught (e : PyExn)
deriving DecidableEq

/-- The observable side effects of a pipeline run, in order. -/
inductive Ev
  | readFile (f : PyStr)
  | editorSession
  | doiLookup (d : PyStr)
  | isbnLookup (i : PyStr)
  | uiError (k : ErrKind)
  | uiWarning (skipped used : PyStr)
  | pushPaper (p : MPaper)
  | uiMessage
  | pushDoc (citekey : PyStr) (doc : PyStr) (copy : Bool)
  | removeFile (f : PyStr)
  | closeRepo
deriving DecidableEq

/-- Result of the entry-acquisition phase: either ui.exit was called, or
control continues with the value of the bibentry variable, which is None
exactly when an explicit bibfile failed to verify (that branch reports an
error but does not exit, add_cmd.py lines 107-108). -/
inductive AcqResult
  | exited (code : Nat)
  | ok (bib : Option Entry)
deriving DecidableEq

/-- add_cmd.py lines 85-108: acquire the bibliographic entry.
With a bibfile, read and verify it (no exit on failure). Without one:
with neither doi nor isbn, run the editor loop; otherwise run the doi
lookup when a doi is given (on failure report, and exit 1 only when no
isbn is available as fallback), then run the isbn lookup whenever an isbn
is given - also after a successful doi lookup, whose result it overwrites -
exiting 1 when the isbn lookup fails. -/
def acquireEntry (env : Env) (args : Args) : List Ev × AcqResult :=
  match args.bibfile with
  | some f =>
    match env.fileResult with
    | some e => ([Ev.readFile f], AcqResult.ok (some e))
    | none => ([Ev.readFile f, Ev.uiError (ErrKind.invalidBibfile f)],
               AcqResult.ok none)
  | none =>
    match args.doi, args.isbn with
    | none, none =>
      match env.editor with
      | EditorOutcome.entry e => ([Ev.editorSession], AcqResult.ok (some e))
      | EditorOutcome.aborted c => ([Ev.editorSession], AcqResult.exited c)
    | some d, none =>
      match env.doiResult with
      | some e => ([Ev.doiLookup d], AcqResult.ok (some e))
      | none => ([Ev.doiLookup d, Ev.uiError (ErrKind.invalidDoi d)],
                 AcqResult.exited 1)
    | none, some i =>
      match env.isbnResult with
      | some e => ([Ev.isbnLookup i], AcqResult.ok (some e))
      | none => ([Ev.isbnLookup i, Ev.uiError (ErrKind.invalidIsbn i)],
                 AcqResult.exited 1)
    | some d, some i =>
      let ev1 := match env.doiResult with
        | some _ => [Ev.doiLookup d]
        | none => [Ev.doiLookup d, Ev.uiError (ErrKind.invalidDoi d)]
      match env.isbnResult with
      | some e => (ev1 ++ [Ev.isbnLookup i], AcqResult.ok (some e))
      | none => (ev1 ++ [Ev.isbnLookup i, Ev.uiError (ErrKind.invalidIsbn i)],
                 AcqResult.exited 1)

/-- Result of the citekey resolution phase. -/
inductive CkResult
  | exited (code : Nat)
  | raised (e : PyExn)
  | ok (key : PyStr)
deriving DecidableEq

/-- add_cmd.py lines 112-118: with no explicit citekey, derive a base key
with bibstruct.extract_citekey (which raises on a None bibentry, since it
iterates the entries of its argument) and disambiguate it through the
repository; with an explicit citekey, exit 1 on a repository collision and
use it unchanged otherwise. -/
def resolveCitekey (env : Env) (args : Args) (bib : Option Entry) :
    List Ev × CkResult :=
  match args.citekey with
  | none =>
    match bib with
    | none => ([], CkResult.raised PyExn.noneTypeError)
    | some e => ([], CkResult.ok (env.uniqueCitekey (env.extractCitekey e)))
  | some k =>
    if k ∈ env.repoKeys then
      ([Ev.uiError (ErrKind.citekeyCollision k)], CkResult.exited 1)
    else ([], CkResult.ok k)

/-- Modelled from the spec: pubs.paper.Paper.from_bibentry is not under
src (only its call site is). Per section 4.2 of the spec, construction
fails with InvalidCitekey if the citekey differs from its sanitized form;
a None bibentry makes the construction raise while handling the entry
(operating on None), before any paper exists. Tags start empty. -/
def fromBibentry (bib : Option Entry) (citekey : PyStr) : Except PyExn MPaper :=
  match bib with
  | none => Except.error PyExn.noneTypeError
  | some e =>
    if str2citekey citekey ≠ citekey then
      Except.error (PyExn.invalidCitekey (some citekey))
    else Except.ok ⟨e, citekey, []⟩

/-- add_cmd.py lines 124-125: split the tag string on commas into a set
(modelled as a deduplicated list). -/
def applyTags (args : Args) (p0 : MPaper) : MPaper :=
  match args.tags with
  | none => p0
  | some t => ⟨p0.bibentry, p0.citekey, (pySplit ',' t).dedup⟩

/-- add_cmd.py lines 129-134: the explicit docfile argument wins over a
document reference embedded in the entry; when both are present the
embedded one is skipped with a warning. -/
def resolveDocument (args : Args) (bibDoc : Option PyStr) :
    List Ev × Option PyStr :=
  match args.docfile, bibDoc with
  | none, bd => ([], bd)
  | some d, none => ([], some d)
  | some d, some b => ([Ev.uiWarning b d], some d)

/-- The string copy. -/
def copyStr : PyStr := "copy".toList

/-- The string move. -/
def moveStr : PyStr := "move".toList

/-- The string url. -/
def urlStr : PyStr := "url".toList

/-- add_cmd.py lines 137-153: default doc_add from the configuration, push
the paper, report, then (when a document was resolved) push the document
with copy semantics exactly when doc_add is copy or move, delete the
original on move unless it is a url, report the placement, and close the
repository. -/
def commitPhase (env : Env) (args : Args) (p : MPaper)
    (docfile : Option PyStr) : List Ev :=
  let docAdd := args.docAdd.getD env.confDocAdd
  [Ev.pushPaper p, Ev.uiMessage] ++
  (match docfile with
   | none => []
   | some d =>
     [Ev.pushDoc p.citekey d (docAdd == copyStr || docAdd == moveStr)] ++
     (if docAdd = moveStr ∧ env.contentType d ≠ urlStr
      then [Ev.removeFile d] else []) ++
     (if docAdd = moveStr then [Ev.uiMessage]
      else if docAdd = copyStr then [Ev.uiMessage] else [])) ++
  [Ev.closeRepo]

/-- Terminal status of a pipeline run: normal completion, a ui.exit call,
or an exception propagating out of command. -/
inductive Outcome
  | finished
  | exited (code : Nat)
  | raised (e : PyExn)
deriving DecidableEq

/-- Continuation of command after the citekey has been resolved:
construct the paper (add_cmd.py line 120), apply tags, resolve the
document source and commit. -/
def afterResolveKey (env : Env) (args : Args) (evs : List Ev)
    (bib : Option Entry) (key : PyStr) : List Ev × Outcome :=
  match fromBibentry bib key with
  | Except.error e => (evs, Outcome.raised e)
  | Except.ok p0 =>
    match resolveDocument args (env.extractDocfile p0.bibentry) with
    | (ev3, docfile) =>
      (evs ++ ev3 ++ commitPhase env args (applyTags args p0) docfile,
       Outcome.finished)

/-- Continuation of command after entry acquisition. -/
def afterAcquire (env : Env) (args : Args) (ev1 : List Ev)
    (bib : Option Entry) : List Ev × Outcome :=
  match resolveCitekey env args bib with
  | (ev2, CkResult.exited c) => (ev1 ++ ev2, Outcome.exited c)
  | (ev2, CkResult.raised e) => (ev1 ++ ev2, Outcome.raised e)
  | (ev2, CkResult.ok key) => afterResolveKey env args (ev1 ++ ev2) bib key

/-- command, add_cmd.py lines 70-153: the whole add pipeline. -/
def command (env : Env) (args : Args) : List Ev × Outcome :=
  match acquireEntry env args with
  | (ev1, AcqResult.exited c) => (ev1, Outcome.exited c)
  | (ev1, AcqResult.ok bib) => afterAcquire env args ev1 bib

/-- Modelled from the spec: the process boundary around the pipeline is
not under src. Per section 7 of the spec, an error propagating to the
pipeline boundary is reported to the user and terminates the process with
a non-zero status; a ui.exit call terminates with its code; normal
completion terminates with 0. Result: events and the final exit status. -/
def execute (env : Env) (args : Args) : List Ev × Nat :=
  match command env args with
  | (ev, Outcome.finished) => (ev, 0)
  | (ev, Outcome.exited c) => (ev, c)
  | (ev, Outcome.raised e) => (ev ++ [Ev.uiError (ErrKind.uncaught e)], 1)

/-- Whether an event is the use of a bibliographic source (file read,
editor session, doi or isbn lookup). -/
def isSourceEv : Ev → Bool
  | Ev.readFile _ => true
  | Ev.editorSession => true
  | Ev.doiLookup _ => true
  | Ev.isbnLookup _ => true
  | _ => false

/-- Which source events a run performs, as a function of the arguments
alone: the explicit bibfile when given; the editor when neither bibfile,
doi nor isbn is given; otherwise the doi lookup when a doi is given
followed by the isbn lookup when an isbn is given. -/
def sourceEvents (args : Args) : List Ev :=
  match args.bibfile with
  | some f => [Ev.readFile f]
  | none =>
    if args.doi = none ∧ args.isbn = none then [Ev.editorSession]
    else (args.doi.map Ev.doiLookup).toList ++
         (args.isbn.map Ev.isbnLookup).toList

/-! ## Concrete fixtures used by witnesses and counterexamples -/

/-- A sample entry, standing for the result of a successful doi lookup. -/
def entryD : Entry := ⟨defaultType, [], [(authorKey, [⟨["Doe".toList]⟩])]⟩

/-- A second, distinct sample entry, standing for the result of a
successful isbn lookup. -/
def entryI : Entry := ⟨"book".toList, [], []⟩

/-- A concrete environment: every lookup fails, the editor aborts, the
repository is empty, and the configured default placement is copy. -/
def envBase : Env where
  editor := EditorOutcome.aborted 0
  fileResult := none
  doiResult := none
  isbnResult := none
  extractCitekey := fun _ => "Key".toList
  uniqueCitekey := fun k => k
  repoKeys := []
  extractDocfile := fun _ => none
  contentType := fun _ => "file".toList
  confDocAdd := copyStr

/-- Environment in which both the doi and the isbn lookup succeed, with
distinct results. -/
def envC1 : Env := { envBase with doiResult := some entryD, isbnResult := some entryI }

/-- Arguments supplying both a doi and an isbn, plus a fresh explicit
citekey. -/
def argsC1 : Args :=
  ⟨none, some ("d1".toList), some ("i1".toList), none, none, some ("ck".toList), none⟩

/-- Environment in which the explicit bibfile verifies and the repository
already holds the key dup. -/
def envC2 : Env := { envBase with fileResult := some entryD, repoKeys := ["dup".toList] }

/-- Arguments with an explicit bibfile and the colliding citekey dup. -/
def argsC2a : Args :=
  ⟨some ("p.bib".toList), none, none, none, none, some ("dup".toList), none⟩

/-- Arguments with an explicit bibfile and a sanitizer-invalid citekey. -/
def argsC2b : Args :=
  ⟨some ("p.bib".toList), none, none, none, none, some ("a@b".toList), none⟩

/-- Arguments with an explicit bibfile only (whose decoding will fail in
the base environment). -/
def argsC3 : Args := ⟨some ("bad.bib".toList), none, none, none, none, none, none⟩

/-! ## Helper lemmas -/

theorem acquire_no_pushPaper (env : Env) (args : Args) (q : MPaper) :
    Ev.pushPaper q ∉ (acquireEntry env args).1 := by
  unfold acquireEntry
  rcases args.bibfile with _ | f
  · rcases args.doi with _ | d <;> rcases args.isbn with _ | i
    · cases env.editor <;> simp
    · cases env.isbnResult <;> simp
    · cases env.doiResult <;> simp
    · cases env.doiResult <;> cases env.isbnResult <;> simp
  · cases env.fileResult <;> simp

theorem acquire_filter_sources (env : Env) (args : Args) :
    (acquireEntry env args).1.filter isSourceEv = sourceEvents args := by
  unfold acquireEntry sourceEvents
  rcases args.bibfile with _ | f
  · rcases args.doi with _ | d <;> rcases args.isbn with _ | i
    · cases env.editor <;> simp [isSourceEv]
    · cases env.isbnResult <;> simp [isSourceEv]
    · cases env.doiResult <;> simp [isSourceEv]
    · cases env.doiResult <;> cases env.isbnResult <;> simp [isSourceEv]
  · cases env.fileResult <;> simp [isSourceEv]

theorem resolve_no_source (env : Env) (args : Args) (bib : Option Entry) :
    (resolveCitekey env args bib).1.filter isSourceEv = [] := by
  unfold resolveCitekey
  rcases args.citekey with _ | k
  · cases bib <;> simp
  · by_cases hk : k ∈ env.repoKeys <;> simp [hk, isSourceEv]

theorem resolve_no_pushPaper (env : Env) (args : Args) (bib : Option Entry)
    (q : MPaper) : Ev.pushPaper q ∉ (resolveCitekey env args bib).1 := by
  unfold resolveCitekey
  rcases args.citekey with _ | k
  · cases bib <;> simp
  · by_cases hk : k ∈ env.repoKeys <;> simp [hk]

theorem resolveDoc_no_source (args : Args) (bd : Option PyStr) :
    (resolveDocument args bd).1.filter isSourceEv = [] := by
  unfold resolveDocument
  rcases args.docfile with _ | d <;> rcases bd with _ | b <;> simp [isSourceEv]

theorem commit_no_source (env : Env) (args : Args) (p : MPaper)
    (docfile : Option PyStr) :
    (commitPhase env args p docfile).filter isSourceEv = [] := by
  rcases docfile with _ | d
  · simp [commitPhase, isSourceEv]
  · by_cases h1 : args.docAdd.getD env.confDocAdd = moveStr <;>
    by_cases h2 : env.contentType d = urlStr <;>
    by_cases h3 : args.docAdd.getD env.confDocAdd = copyStr <;>
    simp [commitPhase, isSourceEv, h1, h2, h3]

theorem command_eq_exited {env : Env} {args : Args} {ev1 : List Ev} {c : Nat}
    (hA : acquireEntry env args = (ev1, AcqResult.exited c)) :
    command env args = (ev1, Outcome.exited c) := by
  unfold command
  rw [hA]

theorem command_eq_ok {env : Env} {args : Args} {ev1 : List Ev}
    {bib : Option Entry} (hA : acquireEntry env args = (ev1, AcqResult.ok bib)) :
    command env args = afterAcquire env args ev1 bib := by
  unfold command
  rw [hA]

theorem afterAcquire_eq_exited {env : Env} {args : Args} {bib : Option Entry}
    {ev1 ev2 : List Ev} {c : Nat}
    (hR : resolveCitekey env args bib = (ev2, CkResult.exited c)) :
    afterAcquire env args ev1 bib = (ev1 ++ ev2, Outcome.exited c) := by
  unfold afterAcquire
  rw [hR]

theorem afterAcquire_eq_raised {env : Env} {args : Args} {bib : Option Entry}
    {ev1 ev2 : List Ev} {e : PyExn}
    (hR : resolveCitekey env args bib = (ev2, CkResult.raised e)) :
    afterAcquire env args ev1 bib = (ev1 ++ ev2, Outcome.raised e) := by
  unfold afterAcquire
  rw [hR]

theorem afterAcquire_eq_ok {env : Env} {args : Args} {bib : Option Entry}
    {ev1 ev2 : List Ev} {key : PyStr}
    (hR : resolveCitekey env args bib = (ev2, CkResult.ok key)) :
    afterAcquire env args ev1 bib = afterResolveKey env args (ev1 ++ ev2) bib key := by
  unfold afterAcquire
  rw [hR]

theorem afterResolveKey_eq_raised {env : Env} {args : Args} {evs : List Ev}
    {bib : Option Entry} {key : PyStr} {e : PyExn}
    (hF : fromBibentry bib key = Except.error e) :
    afterResolveKey env args evs bib key = (evs, Outcome.raised e) := by
  unfold afterResolveKey
  rw [hF]

theorem afterResolveKey_eq_ok {env : Env} {args : Args} {evs : List Ev}
    {bib : Option Entry} {key : PyStr} {p0 : MPaper}
    (hF : fromBibentry bib key = Except.ok p0) :
    afterResolveKey env args evs bib key =
      (evs ++ (resolveDocument args (env.extractDocfile p0.bibentry)).1 ++
         commitPhase env args (applyTags args p0)
           (resolveDocument args (env.extractDocfile p0.bibentry)).2,
       Outcome.finished) := by
  unfold afterResolveKey
  rw [hF]

theorem afterResolveKey_events (env : Env) (args : Args) (evs : List Ev)
    (bib : Option Entry) (key : PyStr) :
    ∃ tail : List Ev, (afterResolveKey env args evs bib key).1 = evs ++ tail ∧
      tail.filter isSourceEv = [] := by
  cases hF : fromBibentry bib key with
  | error e =>
    rw [afterResolveKey_eq_raised hF]
    exact ⟨[], by simp, rfl⟩
  | ok p0 =>
    rw [afterResolveKey_eq_ok hF]
    refine ⟨(resolveDocument args (env.extractDocfile p0.bibentry)).1 ++
      commitPhase env args (applyTags args p0)
        (resolveDocument args (env.extractDocfile p0.bibentry)).2, by simp, ?_⟩
    simp [List.filter_append, resolveDoc_no_source, commit_no_source]

theorem afterAcquire_events (env : Env) (args : Args) (ev1 : List Ev)
    (bib : Option Entry) :
    ∃ tail : List Ev, (afterAcquire env args ev1 bib).1 = ev1 ++ tail ∧
      tail.filter isSourceEv = [] := by
  rcases hR : resolveCitekey env args bib with ⟨ev2, r2⟩
  have hev2 : ev2.filter isSourceEv = [] := by
    have h := resolve_no_source env args bib
    rw [hR] at h
    simpa using h
  rcases r2 with c | e | key
  · rw [afterAcquire_eq_exited hR]
    exact ⟨ev2, rfl, hev2⟩
  · rw [afterAcquire_eq_raised hR]
    exact ⟨ev2, rfl, hev2⟩
  · rw [afterAcquire_eq_ok hR]
    obtain ⟨tail, h1, h2⟩ := afterResolveKey_events env args (ev1 ++ ev2) bib key
    exact ⟨ev2 ++ tail, by rw [h1, List.append_assoc],
      by simp [List.filter_append, hev2, h2]⟩

theorem nfkdChar_ascii {c : Char} (h : c.toNat < 128) : nfkdChar c = [c] := by
  unfold nfkdChar
  rw [if_pos h]

theorem nfkd_fixes_ascii : ∀ s : PyStr, (∀ c ∈ s, isAsciiCp c = true) → nfkd s = s := by
  intro s h
  induction s with
  | nil => rfl
  | cons c rest ih =>
    have hc : c.toNat < 128 := by
      have := h c (List.mem_cons_self c rest)
      simpa [isAsciiCp] using this
    have hr := ih (fun x hx => h x (List.mem_cons_of_mem c hx))
    simp [nfkd, nfkdChar_ascii hc, hr]

theorem filter_of_all {α : Type} {p : α → Bool} :
    ∀ l : List α, (∀ c ∈ l, p c = true) → l.filter p = l := by
  intro l h
  induction l with
  | nil => rfl
  | cons c rest ih =>
    have hc := h c (List.mem_cons_self c rest)
    have hr := ih (fun x hx => h x (List.mem_cons_of_mem c hx))
    simp [List.filter, hc, hr]

theorem mem_str2citekey {s : PyStr} {c : Char} (hc : c ∈ str2citekey s) :
    isAsciiCp c = true ∧ isExcluded c = false := by
  unfold str2citekey at hc
  simp only [List.mem_filter] at hc
  exact ⟨hc.1.2, by simpa using hc.2⟩

theorem str2citekey_fixed {t : PyStr}
    (h : ∀ c ∈ t, isAsciiCp c = true ∧ isExcluded c = false) :
    str2citekey t = t := by
  unfold str2citekey
  rw [nfkd_fixes_ascii t (fun c hc => (h c hc).1)]
  rw [filter_of_all t (fun c hc => (h c hc).1)]
  exact filter_of_all t (fun c hc => by simp [(h c hc).2])

/-! ## Claims -/

/-- C5: for every string s, str2citekey is idempotent, and its output
contains no control characters (code points 0-31 and 127-159) and none of
the ten forbidden characters. -/
theorem str2citekey_idempotent_clean (s : PyStr) :
    str2citekey (str2citekey s) = str2citekey s ∧
    ∀ c ∈ str2citekey s, isControlChar c = false ∧ isForbiddenChar c = false := by
  constructor
  · exact str2citekey_fixed (fun c hc => mem_str2citekey hc)
  · intro c hc
    have h2 := (mem_str2citekey hc).2
    simpa [isExcluded, Bool.or_eq_false_iff] using h2

/-- C5 witness at a concrete input. -/
theorem str2citekey_idempotent_clean_witness :
    str2citekey (str2citekey ("a@b".toList)) = str2citekey ("a@b".toList) ∧
    (isControlChar 'a' = false ∧ isForbiddenChar 'a' = false) :=
  ⟨(str2citekey_idempotent_clean ("a@b".toList)).1,
   (str2citekey_idempotent_clean ("a@b".toList)).2 'a' (by decide)⟩

/-- C6: constructing a Paper with a supplied citekey fails with
InvalidCitekey exactly when the citekey differs from its sanitized form;
in particular the citekey a-at-b fails and ab2020 succeeds. -/
theorem paper_invalid_citekey_iff :
    (∀ (be : Option Entry) (md : Option Metadata) (k : PyStr),
      paperInit be md (some k) = Except.error (PyExn.invalidCitekey (some k)) ↔
        k ≠ str2citekey k) ∧
    paperInit none none (some ("a@b".toList)) =
      Except.error (PyExn.invalidCitekey (some ("a@b".toList))) ∧
    paperInit none none (some ("ab2020".toList)) =
      Except.ok ⟨defaultEntry, baseMeta, some ("ab2020".toList)⟩ := by
  refine ⟨?_, by rfl, by rfl⟩
  intro be md k
  unfold paperInit pyUnicodeOpt
  by_cases h : k = str2citekey k
  · rw [if_neg (by simpa using h)]
    exact ⟨fun heq => Except.noConfusion heq, fun hne => absurd h hne⟩
  · rw [if_pos (by simpa using h)]
    exact iff_of_true rfl h

/-- C7: save_to_disc on a Paper with an unset citekey fails with
MissingCitekey (the error result carries no write events). -/
theorem save_to_disc_requires_citekey (p : Paper) (b m : PyStr)
    (h : p.citekey = none) :
    saveToDisc p b m = Except.error PyExn.missingCitekey := by
  unfold saveToDisc
  rw [h]

/-- C7 witness at a concrete paper. -/
theorem save_to_disc_requires_citekey_witness :
    saveToDisc ⟨defaultEntry, baseMeta, none⟩ [] [] =
      Except.error PyExn.missingCitekey :=
  save_to_disc_requires_citekey ⟨defaultEntry, baseMeta, none⟩ [] [] rfl

/-- C9: constructing a Paper with an absent (None) citekey succeeds -
unicode(None) equals its own sanitized form, so the validity check passes -
and only a later save_to_disc rejects the paper with MissingCitekey. -/
theorem paper_none_citekey_deferred (be : Option Entry) (md : Option Metadata)
    (b m : PyStr) :
    ∃ p : Paper, paperInit be md none = Except.ok p ∧ p.citekey = none ∧
      saveToDisc p b m = Except.error PyExn.missingCitekey := by
  refine ⟨⟨be.getD defaultEntry, md.getD baseMeta, none⟩, ?_, rfl, rfl⟩
  unfold paperInit
  rw [if_neg (by decide)]

/-- C4 counterexample: on a paper whose author person list is present but
empty, generate_citekey fails with the uncaught IndexError, not with the
missing-author error, refuting the claim that an empty selected list yields
MissingAuthor. -/
theorem generate_citekey_empty_author_list :
    generateCitekey ⟨⟨defaultType, [], [(authorKey, [])]⟩, baseMeta, none⟩ =
      Except.error PyExn.indexError ∧
    PyExn.indexError ≠ PyExn.missingAuthor :=
  ⟨rfl, by decide⟩

/-- C4 amended: generate_citekey selects the author person list if the
author key is present, else the editor list; it fails with MissingAuthor
when neither key exists; when the selected list exists but is empty the
failure is an uncaught IndexError instead; otherwise it returns the
sanitized concatenation of the first person's last names and the year. -/
theorem generate_citekey_selection (p : Paper) :
    (alistLookup p.bibentry.persons authorKey = none →
     alistLookup p.bibentry.persons editorKey = none →
     generateCitekey p = Except.error PyExn.missingAuthor) ∧
    (alistLookup p.bibentry.persons authorKey = some [] →
     generateCitekey p = Except.error PyExn.indexError) ∧
    (alistLookup p.bibentry.persons authorKey = none →
     alistLookup p.bibentry.persons editorKey = some [] →
     generateCitekey p = Except.error PyExn.indexError) ∧
    (∀ (pr : Person) (rest : List Person),
     alistLookup p.bibentry.persons authorKey = some (pr :: rest) →
     generateCitekey p = Except.ok (str2citekey (strJoin pr.last ++
       (alistLookup p.bibentry.fields yearKey).getD []))) ∧
    (∀ (pr : Person) (rest : List Person),
     alistLookup p.bibentry.persons authorKey = none →
     alistLookup p.bibentry.persons editorKey = some (pr :: rest) →
     generateCitekey p = Except.ok (str2citekey (strJoin pr.last ++
       (alistLookup p.bibentry.fields yearKey).getD []))) := by
  refine ⟨?_, ?_, ?_, ?_, ?_⟩
  · intro hA hE
    simp [generateCitekey, hA, hE]
  · intro hA
    simp [generateCitekey, hA]
  · intro hA hE
    simp [generateCitekey, hA, hE]
  · intro pr rest hA
    simp [generateCitekey, hA]
  · intro pr rest hA hE
    simp [generateCitekey, hA, hE]

/-- C4 amended witness: the missing-author case on an entry with neither
author nor editor, and the Smith-2020 example through the author branch. -/
theorem generate_citekey_selection_witness :
    generateCitekey ⟨defaultEntry, baseMeta, none⟩ =
      Except.error PyExn.missingAuthor ∧
    generateCitekey ⟨⟨defaultType, [(yearKey, "2020".toList)],
        [(authorKey, [⟨["Smith".toList]⟩])]⟩, baseMeta, none⟩ =
      Except.ok ("Smith2020".toList) := by
  constructor
  · exact (generate_citekey_selection ⟨defaultEntry, baseMeta, none⟩).1 rfl rfl
  · have h := (generate_citekey_selection
      ⟨⟨defaultType, [(yearKey, "2020".toList)],
        [(authorKey, [⟨["Smith".toList]⟩])]⟩, baseMeta, none⟩).2.2.2.1
      ⟨["Smith".toList]⟩ [] rfl
    rw [h]
    rfl

/-- C8: get_document_file_from_bibdata fails with NoDocumentFile when the
file field is absent; when it is present, the field is split on colons, the
first non-empty candidate is returned with a leading slash prepended
unless it already starts with one, and the call fails with NoDocumentFile
when no non-empty candidate exists (which covers the empty field); the
concrete two-candidate field yields the first candidate with a slash. -/
theorem extract_embedded_document_spec :
    (∀ (p : Paper) (r : Bool), alistLookup p.bibentry.fields fileKey = none →
      (getDocumentFileFromBibdata p r).1 = Except.error PyExn.noDocumentFile) ∧
    (∀ (p : Paper) (r : Bool) (field : PyStr),
      alistLookup p.bibentry.fields fileKey = some field →
      (getDocumentFileFromBibdata p r).1 =
        (match loopFirstNonEmpty (pySplit ':' field) with
         | [] => Except.error PyExn.noDocumentFile
         | c :: rest =>
             if c ≠ '/' then Except.ok ('/' :: c :: rest)
             else Except.ok (c :: rest))) ∧
    (getDocumentFileFromBibdata
        ⟨⟨defaultType, [(fileKey, "files/a.pdf:files/b.pdf".toList)], []⟩,
         baseMeta, none⟩ false).1 = Except.ok ("/files/a.pdf".toList) := by
  refine ⟨?_, ?_, rfl⟩
  · intro p r h
    simp [getDocumentFileFromBibdata, h]
  · intro p r field h
    cases hm : loopFirstNonEmpty (pySplit ':' field) with
    | nil => simp [getDocumentFileFromBibdata, h, hm]
    | cons c rest => simp [getDocumentFileFromBibdata, h, hm]

/-- C8 witness: the absent-field case and the empty-field case both fail
with NoDocumentFile. -/
theorem extract_embedded_document_spec_witness :
    (getDocumentFileFromBibdata ⟨defaultEntry, baseMeta, none⟩ false).1 =
      Except.error PyExn.noDocumentFile ∧
    (getDocumentFileFromBibdata ⟨⟨defaultType, [(fileKey, [])], []⟩,
        baseMeta, none⟩ false).1 = Except.error PyExn.noDocumentFile :=
  ⟨extract_embedded_document_spec.1 ⟨defaultEntry, baseMeta, none⟩ false rfl,
   extract_embedded_document_spec.2.1
     ⟨⟨defaultType, [(fileKey, [])], []⟩, baseMeta, none⟩ false [] rfl⟩

/-- C10: with remove set, when the file field is present but yields no
usable candidate, the field is popped from the entry even though the call
fails with NoDocumentFile: the failing call still mutates the entry. -/
theorem extract_embedded_document_mutation (p : Paper) (field : PyStr)
    (h : alistLookup p.bibentry.fields fileKey = some field)
    (hempty : loopFirstNonEmpty (pySplit ':' field) = []) :
    getDocumentFileFromBibdata p true =
      (Except.error PyExn.noDocumentFile, eraseField p.bibentry fileKey) := by
  simp [getDocumentFileFromBibdata, h, hempty]

/-- C1 counterexample: with both a doi and an isbn supplied and the doi
lookup succeeding, the isbn lookup is still attempted and its (distinct)
entry is the one pushed, refuting the claim that the isbn lookup runs only
as a fallback when the doi lookup fails to decode. -/
theorem isbn_lookup_despite_doi_success :
    envC1.doiResult = some entryD ∧
    Ev.doiLookup ("d1".toList) ∈ (command envC1 argsC1).1 ∧
    Ev.isbnLookup ("i1".toList) ∈ (command envC1 argsC1).1 ∧
    Ev.pushPaper ⟨entryI, "ck".toList, []⟩ ∈ (command envC1 argsC1).1 ∧
    entryI ≠ entryD := by
  refine ⟨rfl, ?_, ?_, ?_, by decide⟩ <;> decide

/-- C1 amended: in AcquireEntry an explicit bib file suppresses every
other source and the editor runs only when no bib file, doi or isbn is
given; but the doi and isbn lookups are each attempted whenever the
corresponding argument is supplied (and no bib file is given) - the isbn
lookup also after a successful doi lookup, whose verified result it then
replaces. -/
theorem acquire_source_selection (env : Env) (args : Args) :
    ((command env args).1.filter isSourceEv = sourceEvents args) ∧
    (∀ (d i : PyStr) (e : Entry), args.bibfile = none → args.doi = some d →
      args.isbn = some i → env.isbnResult = some e →
      (acquireEntry env args).2 = AcqResult.ok (some e)) := by
  constructor
  · rcases hA : acquireEntry env args with ⟨ev1, r1⟩
    have hev1 : ev1.filter isSourceEv = sourceEvents args := by
      have h := acquire_filter_sources env args
      rw [hA] at h
      simpa using h
    rcases r1 with c | bib
    · rw [command_eq_exited hA]
      simpa using hev1
    · rw [command_eq_ok hA]
      obtain ⟨tail, h1, h2⟩ := afterAcquire_events env args ev1 bib
      rw [h1, List.filter_append, hev1, h2, List.append_nil]
  · intro d i e hb hd hi he
    cases hdr : env.doiResult <;>
      simp [acquireEntry, hb, hd, hi, he, hdr]

/-- C1 amended witness: the concrete doi-and-isbn run. -/
theorem acquire_source_selection_witness :
    ((command envC1 argsC1).1.filter isSourceEv = sourceEvents argsC1) ∧
    (acquireEntry envC1 argsC1).2 = AcqResult.ok (some entryI) :=
  ⟨(acquire_source_selection envC1 argsC1).1,
   (acquire_source_selection envC1 argsC1).2 ("d1".toList) ("i1".toList)
     entryI rfl rfl rfl rfl⟩

/-- C2: a caller-supplied explicit citekey that collides with the
repository makes the pipeline report the collision and exit 1 before any
paper is pushed; a sanitizer-invalid one makes the construction raise
InvalidCitekey, which reaches the boundary, is reported, and terminates
with status 1, again with no paper pushed. -/
theorem explicit_citekey_validation (env : Env) (args : Args) (k : PyStr)
    (e : Entry) (hk : args.citekey = some k)
    (hacq : (acquireEntry env args).2 = AcqResult.ok (some e)) :
    (k ∈ env.repoKeys →
      (execute env args).2 = 1 ∧
      Ev.uiError (ErrKind.citekeyCollision k) ∈ (execute env args).1 ∧
      ∀ q : MPaper, Ev.pushPaper q ∉ (execute env args).1) ∧
    (k ∉ env.repoKeys → str2citekey k ≠ k →
      (execute env args).2 = 1 ∧
      Ev.uiError (ErrKind.uncaught (PyExn.invalidCitekey (some k))) ∈
        (execute env args).1 ∧
      ∀ q : MPaper, Ev.pushPaper q ∉ (execute env args).1) := by
  rcases hA : acquireEntry env args with ⟨ev1, r1⟩
  rw [hA] at hacq
  have hr1 : r1 = AcqResult.ok (some e) := hacq
  subst hr1
  have hnp : ∀ q : MPaper, Ev.pushPaper q ∉ ev1 := by
    intro q
    have h := acquire_no_pushPaper env args q
    rw [hA] at h
    simpa using h
  constructor
  · intro hmem
    have hres : resolveCitekey env args (some e) =
        ([Ev.uiError (ErrKind.citekeyCollision k)], CkResult.exited 1) := by
      unfold resolveCitekey
      rw [hk]
      simp [hmem]
    have hc : command env args =
        (ev1 ++ [Ev.uiError (ErrKind.citekeyCollision k)], Outcome.exited 1) :=
      (command_eq_ok hA).trans (afterAcquire_eq_exited hres)
    have hexec : execute env args =
        (ev1 ++ [Ev.uiError (ErrKind.citekeyCollision k)], 1) := by
      unfold execute
      rw [hc]
    rw [hexec]
    refine ⟨rfl, by simp, ?_⟩
    intro q hq
    rcases List.mem_append.mp hq with hq | hq
    · exact hnp q hq
    · simp at hq
  · intro hnmem hinv
    have hres : resolveCitekey env args (some e) = ([], CkResult.ok k) := by
      unfold resolveCitekey
      rw [hk]
      simp [hnmem]
    have hfb : fromBibentry (some e) k =
        Except.error (PyExn.invalidCitekey (some k)) := by
      simp only [fromBibentry]
      rw [if_pos hinv]
    have hc : command env args =
        (ev1 ++ [], Outcome.raised (PyExn.invalidCitekey (some k))) :=
      (command_eq_ok hA).trans ((afterAcquire_eq_ok hres).trans
        (afterResolveKey_eq_raised hfb))
    have hexec : execute env args =
        ((ev1 ++ []) ++
          [Ev.uiError (ErrKind.uncaught (PyExn.invalidCitekey (some k)))], 1) := by
      unfold execute
      rw [hc]
    rw [hexec]
    refine ⟨rfl, by simp, ?_⟩
    intro q hq
    simp only [List.append_nil, List.mem_append] at hq
    rcases hq with hq | hq
    · exact hnp q hq
    · simp at hq

/-- C2 witness: the collision case and the invalid-citekey case on
concrete runs. -/
theorem explicit_citekey_validation_witness :
    ((execute envC2 argsC2a).2 = 1 ∧
     Ev.uiError (ErrKind.citekeyCollision ("dup".toList)) ∈
       (execute envC2 argsC2a).1) ∧
    ((execute envC2 argsC2b).2 = 1 ∧
     Ev.uiError (ErrKind.uncaught (PyExn.invalidCitekey (some ("a@b".toList)))) ∈
       (execute envC2 argsC2b).1) := by
  constructor
  · have h := (explicit_citekey_validation envC2 argsC2a ("dup".toList) entryD
      rfl rfl).1 (by decide)
    exact ⟨h.1, h.2.1⟩
  · have h := (explicit_citekey_validation envC2 argsC2b ("a@b".toList) entryD
      rfl rfl).2 (by decide) (by decide)
    exact ⟨h.1, h.2.1⟩

/-- C3: when the explicit bib file fails to decode, the pipeline reports
the invalid-bibfile error, pushes no paper, never opens the editor, and
terminates with status 1 - though not through an explicit exit in this
branch: every continuation path on the resulting None entry raises or
exits before push_paper, and the raise is turned into status 1 at the
(spec-modelled) boundary. -/
theorem explicit_bibfile_decode_fatal (env : Env) (args : Args) (f : PyStr)
    (hf : args.bibfile = some f) (hd : env.fileResult = none) :
    Ev.uiError (ErrKind.invalidBibfile f) ∈ (execute env args).1 ∧
    (execute env args).2 = 1 ∧
    (∀ q : MPaper, Ev.pushPaper q ∉ (execute env args).1) ∧
    Ev.editorSession ∉ (execute env args).1 := by
  have hA : acquireEntry env args =
      ([Ev.readFile f, Ev.uiError (ErrKind.invalidBibfile f)],
       AcqResult.ok none) := by
    unfold acquireEntry
    rw [hf, hd]
  rcases hk : args.citekey with _ | k
  · have hres : resolveCitekey env args none =
        ([], CkResult.raised PyExn.noneTypeError) := by
      unfold resolveCitekey
      rw [hk]
    have hc : command env args =
        ([Ev.readFile f, Ev.uiError (ErrKind.invalidBibfile f)] ++ [],
         Outcome.raised PyExn.noneTypeError) :=
      (command_eq_ok hA).trans (afterAcquire_eq_raised hres)
    have hexec : execute env args =
        (([Ev.readFile f, Ev.uiError (ErrKind.invalidBibfile f)] ++ []) ++
          [Ev.uiError (ErrKind.uncaught PyExn.noneTypeError)], 1) := by
      unfold execute
      rw [hc]
    rw [hexec]
    refine ⟨by simp, rfl, ?_, by simp⟩
    intro q
    simp
  · by_cases hm : k ∈ env.repoKeys
    · have hres : resolveCitekey env args none =
          ([Ev.uiError (ErrKind.citekeyCollision k)], CkResult.exited 1) := by
        unfold resolveCitekey
        rw [hk]
        simp [hm]
      have hc : command env args =
          ([Ev.readFile f, Ev.uiError (ErrKind.invalidBibfile f)] ++
            [Ev.uiError (ErrKind.citekeyCollision k)], Outcome.exited 1) :=
        (command_eq_ok hA).trans (afterAcquire_eq_exited hres)
      have hexec : execute env args =
          ([Ev.readFile f, Ev.uiError (ErrKind.invalidBibfile f)] ++
            [Ev.uiError (ErrKind.citekeyCollision k)], 1) := by
        unfold execute
        rw [hc]
      rw [hexec]
      refine ⟨by simp, rfl, ?_, by simp⟩
      intro q
      simp
    · have hres : resolveCitekey env args none = ([], CkResult.ok k) := by
        unfold resolveCitekey
        rw [hk]
        simp [hm]
      have hfb : fromBibentry none k = Except.error PyExn.noneTypeError := rfl
      have hc : command env args =
          ([Ev.readFile f, Ev.uiError (ErrKind.invalidBibfile f)] ++ [],
           Outcome.raised PyExn.noneTypeError) :=
        (command_eq_ok hA).trans ((afterAcquire_eq_ok hres).trans
          (afterResolveKey_eq_raised hfb))
      have hexec : execute env args =
          (([Ev.readFile f, Ev.uiError (ErrKind.invalidBibfile f)] ++ []) ++
            [Ev.uiError (ErrKind.uncaught PyExn.noneTypeError)], 1) := by
        unfold execute
        rw [hc]
      rw [hexec]
      refine ⟨by simp, rfl, ?_, by simp⟩
      intro q
      simp

/-- C3 witness: a concrete run whose explicit bibfile fails to verify. -/
theorem explicit_bibfile_decode_fatal_witness :
    Ev.uiError (ErrKind.invalidBibfile ("bad.bib".toList)) ∈
      (execute envBase argsC3).1 ∧
    (execute envBase argsC3).2 = 1 :=
  ⟨(explicit_bibfile_decode_fatal envBase argsC3 ("bad.bib".toList) rfl rfl).1,
   (explicit_bibfile_decode_fatal envBase argsC3 ("bad.bib".toList) rfl rfl).2.1⟩

/-- C10 witness: a file field holding a single colon (two empty candidates)
fails with NoDocumentFile while the field has been removed. -/
theorem extract_embedded_document_mutation_witness :
    getDocumentFileFromBibdata
        ⟨⟨defaultType, [(fileKey, [':'])], []⟩, baseMeta, none⟩ true =
      (Except.error PyExn.noDocumentFile,
       eraseField ⟨defaultType, [(fileKey, [':'])], []⟩ fileKey) ∧
    alistLookup (eraseField ⟨defaultType, [(fileKey, [':'])], []⟩
        fileKey).fields fileKey = none :=
  ⟨extract_embedded_document_mutation
      ⟨⟨defaultType, [(fileKey, [':'])], []⟩, baseMeta, none⟩ [':'] rfl rfl,
   rfl⟩
